import Mathlib

/-!
Shallow embedding of the link-resource load coordinator of
`src/components/script/dom/htmllinkelement.rs` (Servo's `HTMLLinkElement`).

Pure data and state transitions are translated directly from the Rust
source; interior-mutable cells become fields of an explicit state record,
and side effects (document stylesheet registry, external stylesheet
loader, embedder channel) become event traces returned alongside the new
state.  Machine integers (`u32`) are modelled as `Nat` with explicit
reduction modulo `2 ^ 32` where the source could wrap.
-/

/-- The modulus of Rust's `u32` arithmetic. -/
def u32Mod : Nat := 2 ^ 32

/-- `RequestGenerationId(u32)` from the source: the newtype wrapping the
generation counter. -/
structure RequestGenerationId where
  val : Nat
  deriving DecidableEq, Repr

/-- `RequestGenerationId::increment`: `RequestGenerationId(self.0 + 1)`,
with `u32` wrap-around made explicit. -/
def RequestGenerationId.increment (g : RequestGenerationId) : RequestGenerationId :=
  ⟨(g.val + 1) % u32Mod⟩

/-- Stylesheets (`Arc<Stylesheet>`) are opaque to this unit; we identify
them by a numeric id. -/
abbrev Sheet : Type := Nat

/-- CSSOM wrappers (`CSSStyleSheet`) are likewise opaque; identified by a
numeric id. -/
abbrev CssomSheet : Type := Nat

/-- The mutable per-element state of `HTMLLinkElement`: the interior
mutable fields of the Rust struct (`DomRefCell` / `MutNullableDom` /
`Cell`), minus the pure reflection glue (`htmlelement`, `rel_list`). -/
structure HTMLLinkElement where
  stylesheet : Option Sheet
  cssom_stylesheet : Option CssomSheet
  parser_inserted : Bool
  pending_loads : Nat
  any_failed_load : Bool
  request_generation_id : RequestGenerationId
  deriving DecidableEq, Repr

/-- `HTMLLinkElement::new_inherited`: the freshly constructed state. -/
def new_inherited (parser_created : Bool) : HTMLLinkElement :=
  { stylesheet := none
    cssom_stylesheet := none
    parser_inserted := parser_created
    pending_loads := 0
    any_failed_load := false
    request_generation_id := ⟨0⟩ }

/-- `HTMLLinkElement::get_request_generation_id`. -/
def get_request_generation_id (st : HTMLLinkElement) : RequestGenerationId :=
  st.request_generation_id

/-- Calls into the document's stylesheet registry
(`Document::add_stylesheet` / `Document::remove_stylesheet`), recorded as
events. -/
inductive RegistryEvent where
  | add_stylesheet (s : Sheet)
  | remove_stylesheet (s : Sheet)
  deriving DecidableEq, Repr

/-- `HTMLLinkElement::set_stylesheet`: deregister the previous sheet from
the document if present, store the new sheet, clear the cached CSSOM
wrapper, register the new sheet.  The registry calls are returned in
source order. -/
def set_stylesheet (s : Sheet) (st : HTMLLinkElement) :
    HTMLLinkElement × List RegistryEvent :=
  let removes : List RegistryEvent :=
    match st.stylesheet with
    | some old => [RegistryEvent.remove_stylesheet old]
    | none => []
  ({ st with stylesheet := some s, cssom_stylesheet := none },
   removes ++ [RegistryEvent.add_stylesheet s])

/-- `HTMLLinkElement::get_stylesheet`. -/
def get_stylesheet (st : HTMLLinkElement) : Option Sheet :=
  st.stylesheet

/-- `HTMLLinkElement::get_cssom_stylesheet`: `get_stylesheet().map(|sheet|
self.cssom_stylesheet.or_init(|| CSSStyleSheet::new(...)))`.  The fresh
wrapper the `or_init` closure would construct is supplied as `fresh`; the
returned `Bool` records whether the closure ran (a wrapper was
constructed). -/
def get_cssom_stylesheet (fresh : CssomSheet) (st : HTMLLinkElement) :
    Option CssomSheet × HTMLLinkElement × Bool :=
  match st.stylesheet with
  | none => (none, st, false)
  | some _ =>
    match st.cssom_stylesheet with
    | some w => (some w, st, false)
    | none => (some fresh, { st with cssom_stylesheet := some fresh }, true)

/-- `VirtualMethods::unbind_from_tree` (the part owned by this unit): take
the stylesheet out of the slot and, if one was present, deregister it.
Note the cached CSSOM wrapper is not touched. -/
def unbind_from_tree (st : HTMLLinkElement) :
    HTMLLinkElement × List RegistryEvent :=
  match st.stylesheet with
  | some s => ({ st with stylesheet := none }, [RegistryEvent.remove_stylesheet s])
  | none => (st, [])

/-- `style::str::HTML_SPACE_CHARACTERS`. -/
def HTML_SPACE_CHARACTERS : List Char := [' ', '\t', '\n', '\x0C', '\r']

/-- Rust's `str::split` over a character predicate (keeps empty
segments), written as structural recursion over the character list. -/
def splitChars (p : Char → Bool) : List Char → List (List Char)
  | [] => [[]]
  | c :: cs =>
    if p c then [] :: splitChars p cs
    else
      match splitChars p cs with
      | [] => [[c]]
      | g :: gs => (c :: g) :: gs

/-- Splitting on `HTML_SPACE_CHARACTERS`, as `value.split(HTML_SPACE_CHARACTERS)`. -/
def splitHtmlSpace (s : String) : List (List Char) :=
  splitChars (fun c => HTML_SPACE_CHARACTERS.contains c) s.toList

/-- ASCII lower-casing of a single character, as in Rust's
`eq_ignore_ascii_case`. -/
def asciiLower (c : Char) : Char :=
  if 'A' ≤ c ∧ c ≤ 'Z' then Char.ofNat (c.toNat + 32) else c

/-- Rust's `str::eq_ignore_ascii_case`. -/
def eqIgnoreAsciiCase (a b : List Char) : Bool :=
  a.map asciiLower == b.map asciiLower

/-- `string_is_stylesheet`: some HTML-space-separated token of `rel`
equals `stylesheet` case-insensitively. -/
def string_is_stylesheet (value : Option String) : Bool :=
  match value with
  | some value =>
    (splitHtmlSpace value).any (fun s => eqIgnoreAsciiCase s "stylesheet".toList)
  | none => false

/-- `is_favicon`: some HTML-space-separated token of `rel` equals `icon`
or `apple-touch-icon` case-insensitively. -/
def is_favicon (value : Option String) : Bool :=
  match value with
  | some value =>
    (splitHtmlSpace value).any
      (fun s => eqIgnoreAsciiCase s "icon".toList ||
                eqIgnoreAsciiCase s "apple-touch-icon".toList)
  | none => false

/-- The attributes of the element this unit consults, as returned by
`get_attr` / `Element::get_attribute` (external glue). -/
structure AttrSet where
  rel : Option String
  href : Option String
  sizes : Option String
  media : Option String
  integrity : Option String

/-- The document-side environment this unit consults: presence of a
browsing context, top-levelness of the window, and URL resolution against
the document's base URL (`document.base_url().join(href)`, an external
collaborator, modelled as an abstract partial function). -/
structure Document where
  has_browsing_context : Bool
  window_is_top_level : Bool
  base_join : String → Option String

/-- One call to the external `StylesheetLoader::load` (url, plus the
integrity metadata and raw media-query string extracted from the
attributes; CORS mode and the parsed media list are external-collaborator
values and carry no state of this unit). -/
structure LoaderCall where
  url : String
  media_query : String
  integrity : String
  deriving DecidableEq, Repr

/-- `EmbedderMsg::NewFavicon`, the one-way embedder notification. -/
inductive EmbedderMsg where
  | NewFavicon (url : String)
  deriving DecidableEq, Repr

/-- `HTMLLinkElement::handle_stylesheet_url`: no browsing context, empty
`href`, or failed URL join are silent early returns; otherwise the
generation counter is bumped and the loader invoked with the resolved
URL, media-query text and integrity metadata. -/
def handle_stylesheet_url (doc : Document) (attrs : AttrSet) (href : String)
    (st : HTMLLinkElement) : HTMLLinkElement × List LoaderCall :=
  if doc.has_browsing_context = false then (st, [])
  else if href.isEmpty then (st, [])
  else
    match doc.base_join href with
    | none => (st, [])
    | some link_url =>
      let mq_str := match attrs.media with
        | some v => v
        | none => ""
      let integrity_metadata := match attrs.integrity with
        | some v => v
        | none => ""
      let st1 := { st with
        request_generation_id := st.request_generation_id.increment }
      (st1, [{ url := link_url, media_query := mq_str,
               integrity := integrity_metadata }])

/-- `HTMLLinkElement::handle_favicon_url`: join `href` against the base
URL; on success, notify the embedder iff the window is top-level; `rel`
and `sizes` are accepted but unused.  Touches no element state. -/
def handle_favicon_url (doc : Document) ( _rel : String) (href : String)
    ( _sizes : Option String) : List EmbedderMsg :=
  match doc.base_join href with
  | some url =>
    if doc.window_is_top_level then [EmbedderMsg.NewFavicon url] else []
  | none => []

/-- Which attribute was mutated (`attr.local_name()`), among the ones this
unit reacts to. -/
inductive AttrName where
  | href
  | sizes
  | other
  deriving DecidableEq, Repr

/-- `VirtualMethods::attribute_mutated` (the part owned by this unit,
after the superclass chain): not-in-doc or removal mutations return
early; an `href` mutation routes to the stylesheet or favicon protocol by
the current `rel`; a `sizes` mutation re-notifies the favicon with the
current `href`.  `value` is the mutated attribute's new value. -/
def attribute_mutated (doc : Document) (attrs : AttrSet) (is_in_doc : Bool)
    (is_removal : Bool) (name : AttrName) (value : String)
    (st : HTMLLinkElement) :
    HTMLLinkElement × List LoaderCall × List EmbedderMsg :=
  if is_in_doc = false ∨ is_removal = true then (st, [], [])
  else
    let rel := attrs.rel
    match name with
    | AttrName.href =>
      if string_is_stylesheet rel then
        let p := handle_stylesheet_url doc attrs value st
        (p.1, p.2, [])
      else if is_favicon rel then
        match rel with
        | some r => (st, [], handle_favicon_url doc r value attrs.sizes)
        | none => (st, [], [])
      else (st, [], [])
    | AttrName.sizes =>
      if is_favicon rel then
        match attrs.href with
        | some href =>
          match rel with
          | some r => (st, [], handle_favicon_url doc r href (some value))
          | none => (st, [], [])
        | none => (st, [], [])
      else (st, [], [])
    | AttrName.other => (st, [], [])

/-- `StylesheetOwner::increment_pending_loads_count`, with `u32` wrap
made explicit. -/
def increment_pending_loads_count (st : HTMLLinkElement) : HTMLLinkElement :=
  { st with pending_loads := (st.pending_loads + 1) % u32Mod }

/-- `StylesheetOwner::load_finished`: `none` models the
`assert!(self.pending_loads.get() > 0, "What finished?")` firing (a fatal
contract violation); otherwise record a failure, decrement the pending
count, and on reaching zero report and reset the accumulated failure
flag. -/
def load_finished (succeeded : Bool) (st : HTMLLinkElement) :
    Option (HTMLLinkElement × Option Bool) :=
  if st.pending_loads > 0 then
    let st1 := if succeeded then st else { st with any_failed_load := true }
    let st2 := { st1 with pending_loads := st1.pending_loads - 1 }
    if st2.pending_loads ≠ 0 then some (st2, none)
    else some ({ st2 with any_failed_load := false }, some st2.any_failed_load)
  else none

/-- Modelled from the spec: the stylesheet loader's completion handler
(`components/script/stylesheet_loader.rs`, not under `src/`) installs a
parsed stylesheet only when the generation recorded at request time still
equals the element's current generation: "install(resource,
generationAtRequest): if generationAtRequest != currentGeneration, no-op
(stale)"; otherwise it calls `set_stylesheet`. -/
def install (s : Sheet) (generationAtRequest : RequestGenerationId)
    (st : HTMLLinkElement) : HTMLLinkElement × List RegistryEvent :=
  if generationAtRequest ≠ get_request_generation_id st then (st, [])
  else set_stylesheet s st

/-- Iterated successful stylesheet-load initiations with a fixed document
environment, attribute set and href: `N` calls to
`handle_stylesheet_url`. -/
def init_iter (doc : Document) (attrs : AttrSet) (href : String)
    (st : HTMLLinkElement) : Nat → HTMLLinkElement
  | 0 => st
  | n + 1 => (handle_stylesheet_url doc attrs href (init_iter doc attrs href st n)).1

/-- Run a batch of sub-load completions through `load_finished`,
collecting the per-call aggregate reports; `none` if any call hits the
contract-violation assertion. -/
def run_batch : List Bool → HTMLLinkElement →
    Option (HTMLLinkElement × List (Option Bool))
  | [], st => some (st, [])
  | b :: bs, st =>
    match load_finished b st with
    | none => none
    | some (st1, r) =>
      match run_batch bs st1 with
      | none => none
      | some (st2, rs) => some (st2, r :: rs)

/-! ### Concrete fixtures used by witnesses and counterexamples -/

/-- A document with a browsing context, top-level window, and a base URL
join that resolves every href. -/
def docEx : Document :=
  { has_browsing_context := true
    window_is_top_level := true
    base_join := fun s => some (String.append "http://a/" s) }

/-- A document with no browsing context. -/
def docNoCtx : Document :=
  { docEx with has_browsing_context := false }

/-- A document whose base URL join fails on every href. -/
def docNoJoin : Document :=
  { docEx with base_join := fun _ => none }

/-- An attribute set for a stylesheet link. -/
def attrsSheet : AttrSet :=
  { rel := some "stylesheet", href := some "s.css", sizes := none
    media := none, integrity := none }

/-- An attribute set for an icon link. -/
def attrsIcon : AttrSet :=
  { rel := some "icon", href := some "fav.png", sizes := some "16x16"
    media := none, integrity := none }

/-- An element state with a stylesheet installed and a cached CSSOM
wrapper. -/
def stWithSheet : HTMLLinkElement :=
  { stylesheet := some 7
    cssom_stylesheet := some 3
    parser_inserted := false
    pending_loads := 0
    any_failed_load := false
    request_generation_id := ⟨2⟩ }

/-! ### Claim theorems -/

/-- Claim C1: an `install` call carrying a generation id different from the
element's current generation is a no-op — the installed stylesheet, the
pending-load count and the failure flag are unchanged, and no registry
calls are made. -/
theorem install_stale_noop (s : Sheet) (g : RequestGenerationId)
    (st : HTMLLinkElement) (h : g ≠ get_request_generation_id st) :
    (install s g st).1.stylesheet = st.stylesheet ∧
    (install s g st).1.pending_loads = st.pending_loads ∧
    (install s g st).1.any_failed_load = st.any_failed_load ∧
    (install s g st).2 = [] := by
  simp [install, h]

/-- Witness for C1: a stale generation (1 ≠ current 2) leaves the state of
`stWithSheet` untouched. -/
theorem install_stale_noop_witness :
    (⟨1⟩ : RequestGenerationId) ≠ get_request_generation_id stWithSheet ∧
    ((install 9 ⟨1⟩ stWithSheet).1.stylesheet = stWithSheet.stylesheet ∧
     (install 9 ⟨1⟩ stWithSheet).1.pending_loads = stWithSheet.pending_loads ∧
     (install 9 ⟨1⟩ stWithSheet).1.any_failed_load = stWithSheet.any_failed_load ∧
     (install 9 ⟨1⟩ stWithSheet).2 = []) :=
  ⟨by decide, install_stale_noop 9 ⟨1⟩ stWithSheet (by decide)⟩

/-- Claim C4: a stylesheet-load attempt with an empty or unresolvable href
is a silent no-op — state (hence the generation counter) unchanged and no
loader invocation. -/
theorem unresolvable_href_noop (doc : Document) (attrs : AttrSet)
    (href : String) (st : HTMLLinkElement)
    (h : href = "" ∨ doc.base_join href = none) :
    handle_stylesheet_url doc attrs href st = (st, []) := by
  rcases h with h | h
  · subst h
    unfold handle_stylesheet_url
    split
    · rfl
    · rfl
  · unfold handle_stylesheet_url
    split
    · rfl
    · split
      · rfl
      · simp [h]

/-- Witness for C4: an href that fails to resolve produces no loader call
and no state change. -/
theorem unresolvable_href_noop_witness :
    ((String.mk ['x']) = "" ∨ docNoJoin.base_join (String.mk ['x']) = none) ∧
    handle_stylesheet_url docNoJoin attrsSheet (String.mk ['x']) stWithSheet =
      (stWithSheet, []) :=
  ⟨Or.inr rfl,
   unresolvable_href_noop docNoJoin attrsSheet (String.mk ['x']) stWithSheet
     (Or.inr rfl)⟩

/-- Claim C9: a stylesheet-load attempt while the document has no browsing
context is a complete no-op — no generation bump and no loader call, for
every href. -/
theorem no_browsing_context_noop (doc : Document) (attrs : AttrSet)
    (href : String) (st : HTMLLinkElement)
    (h : doc.has_browsing_context = false) :
    handle_stylesheet_url doc attrs href st = (st, []) := by
  unfold handle_stylesheet_url
  simp [h]

/-- Witness for C9: with no browsing context, a non-empty resolvable href
still triggers nothing. -/
theorem no_browsing_context_noop_witness :
    docNoCtx.has_browsing_context = false ∧
    handle_stylesheet_url docNoCtx attrsSheet "s.css" stWithSheet =
      (stWithSheet, []) :=
  ⟨rfl, no_browsing_context_noop docNoCtx attrsSheet "s.css" stWithSheet rfl⟩

/-! ### Helper lemmas about `load_finished` and batches -/

/-- Closed form of `load_finished` when the assertion passes. -/
lemma load_finished_eq (succeeded : Bool) (st : HTMLLinkElement)
    (hp : 0 < st.pending_loads) :
    load_finished succeeded st =
      if st.pending_loads - 1 ≠ 0 then
        some ({ st with pending_loads := st.pending_loads - 1,
                        any_failed_load := st.any_failed_load || !succeeded },
              none)
      else
        some ({ st with pending_loads := 0, any_failed_load := false },
              some (st.any_failed_load || !succeeded)) := by
  unfold load_finished
  rw [if_pos hp]
  cases succeeded <;> by_cases h0 : st.pending_loads - 1 = 0 <;>
    simp [h0]

/-- Closed form of `run_batch` when the pending count matches the batch
size: the aggregate report appears exactly once, after the last
completion, and ors the initial failure flag with the batch failures. -/
lemma run_batch_eq (bs : List Bool) :
    ∀ st : HTMLLinkElement, st.pending_loads = bs.length → 0 < bs.length →
    run_batch bs st =
      some ({ st with pending_loads := 0, any_failed_load := false },
            List.replicate (bs.length - 1) none ++
              [some (st.any_failed_load || bs.any (fun b => !b))]) := by
  induction bs with
  | nil =>
    intro st _ hpos
    exact absurd hpos (by decide)
  | cons b bs ih =>
    intro st hlen hpos
    have hp : 0 < st.pending_loads := by rw [hlen]; exact Nat.succ_pos _
    rcases List.eq_nil_or_concat bs with hnil | _
    · subst hnil
      have h1 : st.pending_loads = 1 := by simpa using hlen
      unfold run_batch
      rw [load_finished_eq b st hp, h1]
      simp [run_batch]
    · have hbs : 0 < bs.length := by
        cases bs with
        | nil => simp_all
        | cons c cs => exact Nat.succ_pos _
      have hlen1 : st.pending_loads - 1 = bs.length := by
        rw [hlen]; simp
      have hne : st.pending_loads - 1 ≠ 0 := by
        rw [hlen1]; exact Nat.pos_iff_ne_zero.mp hbs
      unfold run_batch
      rw [load_finished_eq b st hp, if_pos hne]
      have ih2 := ih { st with pending_loads := st.pending_loads - 1,
                               any_failed_load := st.any_failed_load || !b }
        hlen1 hbs
      simp only [ih2]
      have hrep : List.replicate ((b :: bs).length - 1) (none : Option Bool) =
          none :: List.replicate (bs.length - 1) none := by
        have : (b :: bs).length - 1 = Nat.succ (bs.length - 1) := by
          cases bs with
          | nil => simp_all
          | cons c cs => simp
        rw [this, List.replicate_succ]
      have hrep2 : List.replicate bs.length (none : Option Bool) =
          none :: List.replicate (bs.length - 1) none := by
        conv_lhs => rw [← Nat.succ_pred_eq_of_pos hbs]
        rw [List.replicate_succ]
        rfl
      simp [hrep, hrep2, Bool.or_assoc]

/-- `List.any` is invariant under permutation of the list. -/
lemma perm_any_eq {bs1 bs2 : List Bool} (h : List.Perm bs1 bs2)
    (p : Bool → Bool) : bs1.any p = bs2.any p := by
  cases h1 : bs1.any p
  · cases h2 : bs2.any p
    · rfl
    · exfalso
      rw [List.any_eq_true] at h2
      rcases h2 with ⟨x, hx, hpx⟩
      have hx1 : x ∈ bs1 := h.mem_iff.2 hx
      have hcon : bs1.any p = true := List.any_eq_true.2 ⟨x, hx1, hpx⟩
      rw [h1] at hcon
      cases hcon
  · rw [List.any_eq_true] at h1
    rcases h1 with ⟨x, hx, hpx⟩
    exact (List.any_eq_true.2 ⟨x, h.mem_iff.1 hx, hpx⟩).symm

/-- Claim C2: with pending count `p > 0`, `load_finished` decrements the
count, folds a failure into the flag, reports `none` while sub-loads
remain, and on the last completion reports the accumulated flag exactly
once and resets it; hence a batch of `n` completions produces the
aggregate outcome exactly once, on the `n`-th finish, equal to true iff
any completion failed, independently of completion order. -/
theorem load_finished_batch_exactly_once :
    (∀ (st : HTMLLinkElement) (succeeded : Bool), 0 < st.pending_loads →
       ∃ st1 r, load_finished succeeded st = some (st1, r) ∧
         st1.pending_loads = st.pending_loads - 1 ∧
         (0 < st.pending_loads - 1 →
            r = none ∧
            st1.any_failed_load = (st.any_failed_load || !succeeded)) ∧
         (st.pending_loads - 1 = 0 →
            r = some (st.any_failed_load || !succeeded) ∧
            st1.any_failed_load = false)) ∧
    (∀ (st : HTMLLinkElement) (bs : List Bool),
       st.pending_loads = bs.length → 0 < bs.length →
       st.any_failed_load = false →
       run_batch bs st =
         some ({ st with pending_loads := 0, any_failed_load := false },
               List.replicate (bs.length - 1) none ++
                 [some (bs.any (fun b => !b))])) ∧
    (∀ (st : HTMLLinkElement) (bs1 bs2 : List Bool), List.Perm bs1 bs2 →
       st.pending_loads = bs1.length → 0 < bs1.length →
       st.any_failed_load = false →
       run_batch bs1 st = run_batch bs2 st) := by
  refine ⟨?_, ?_, ?_⟩
  · intro st succeeded hp
    rw [load_finished_eq succeeded st hp]
    by_cases h0 : st.pending_loads - 1 = 0
    · rw [if_neg (by simpa using h0)]
      refine ⟨_, _, rfl, by simp [h0], ?_, ?_⟩
      · intro hpos
        rw [h0] at hpos
        exact absurd hpos (by decide)
      · intro _
        exact ⟨rfl, rfl⟩
    · rw [if_pos h0]
      exact ⟨_, _, rfl, rfl, fun _ => ⟨rfl, rfl⟩, fun h => absurd h h0⟩
  · intro st bs hlen hpos hflag
    rw [run_batch_eq bs st hlen hpos, hflag]
    simp
  · intro st bs1 bs2 hperm hlen hpos hflag
    have hlen2 : st.pending_loads = bs2.length := by
      rw [hlen, hperm.length_eq]
    have hpos2 : 0 < bs2.length := by
      rw [← hperm.length_eq]; exact hpos
    rw [run_batch_eq bs1 st hlen hpos, run_batch_eq bs2 st hlen2 hpos2,
        hperm.length_eq, perm_any_eq hperm]

/-- Witness for C2: a batch of three sub-loads, two successes then one
failure, reports `none`, `none`, then exactly one aggregate `some true`. -/
theorem load_finished_batch_exactly_once_witness :
    ({ stWithSheet with pending_loads := 3 } : HTMLLinkElement).pending_loads =
      ([true, true, false] : List Bool).length ∧
    0 < ([true, true, false] : List Bool).length ∧
    ({ stWithSheet with pending_loads := 3 } : HTMLLinkElement).any_failed_load = false ∧
    run_batch [true, true, false] { stWithSheet with pending_loads := 3 } =
      some ({ stWithSheet with pending_loads := 0, any_failed_load := false },
            List.replicate 2 none ++ [some true]) :=
  ⟨rfl, by decide, rfl,
   load_finished_batch_exactly_once.2.1
     { stWithSheet with pending_loads := 3 } [true, true, false] rfl
     (by decide) rfl⟩

/-- Claim C6: `load_finished` hits the fatal assertion exactly when the
pending count is 0; whenever every finish is matched by a start (pending
count positive), the assertion branch is unreachable and the decrement
does not underflow (`new + 1 = old` exactly). -/
theorem load_finished_assert_no_underflow :
    (∀ (st : HTMLLinkElement) (succeeded : Bool),
       load_finished succeeded st = none ↔ st.pending_loads = 0) ∧
    (∀ (st : HTMLLinkElement) (succeeded : Bool), 0 < st.pending_loads →
       ∃ st1 r, load_finished succeeded st = some (st1, r) ∧
         st1.pending_loads + 1 = st.pending_loads) := by
  constructor
  · intro st succeeded
    constructor
    · intro h
      by_contra hne
      have hp : 0 < st.pending_loads := Nat.pos_of_ne_zero hne
      rw [load_finished_eq succeeded st hp] at h
      by_cases h0 : st.pending_loads - 1 ≠ 0 <;> simp [h0] at h
    · intro h
      unfold load_finished
      rw [h]
      rfl
  · intro st succeeded hp
    rw [load_finished_eq succeeded st hp]
    by_cases h0 : st.pending_loads - 1 = 0
    · rw [if_neg (by simpa using h0)]
      refine ⟨_, _, rfl, ?_⟩
      have h1 : st.pending_loads = 1 := by omega
      simp [h1]
    · rw [if_pos h0]
      refine ⟨_, _, rfl, ?_⟩
      simp only []
      omega

/-- Witness for C6: at pending count 0 the assertion fires; at pending
count 3 the call decrements to 2 without underflow. -/
theorem load_finished_assert_no_underflow_witness :
    (load_finished true stWithSheet = none ↔ stWithSheet.pending_loads = 0) ∧
    (0 < (3 : Nat) ∧
     ∃ st1 r, load_finished true { stWithSheet with pending_loads := 3 } =
         some (st1, r) ∧
       st1.pending_loads + 1 =
         ({ stWithSheet with pending_loads := 3 } : HTMLLinkElement).pending_loads) :=
  ⟨load_finished_assert_no_underflow.1 stWithSheet true,
   by decide,
   load_finished_assert_no_underflow.2 { stWithSheet with pending_loads := 3 }
     true (by decide)⟩

/-! ### Helper lemmas about the generation counter -/

/-- A successful stylesheet-load initiation changes only the generation
counter, incrementing it. -/
lemma handle_stylesheet_url_gen_step (doc : Document) (attrs : AttrSet)
    (href : String) (st : HTMLLinkElement) (url : String)
    (hbc : doc.has_browsing_context = true) (hne : href.isEmpty = false)
    (hj : doc.base_join href = some url) :
    (handle_stylesheet_url doc attrs href st).1 =
      { st with request_generation_id := st.request_generation_id.increment } := by
  unfold handle_stylesheet_url
  simp [hbc, hne, hj]

/-- Starting from a freshly constructed element, `n < 2 ^ 32` successful
initiations leave the generation counter at exactly `n`. -/
lemma init_iter_gen_fresh (doc : Document) (attrs : AttrSet) (href : String)
    (url : String) (b : Bool)
    (hbc : doc.has_browsing_context = true) (hne : href.isEmpty = false)
    (hj : doc.base_join href = some url) :
    ∀ n, n < u32Mod →
      (init_iter doc attrs href (new_inherited b) n).request_generation_id.val
        = n := by
  intro n
  induction n with
  | zero => intro _; rfl
  | succ n ih =>
    intro hlt
    have hn : n < u32Mod := Nat.lt_of_succ_lt hlt
    unfold init_iter
    rw [handle_stylesheet_url_gen_step doc attrs href _ url hbc hne hj]
    simp only [RequestGenerationId.increment, ih hn]
    exact Nat.mod_eq_of_lt hlt

/-- Claim C3: the generation counter starts at 0, each successful
stylesheet-load initiation increments it by exactly one, after `N`
initiations (below the `u32` bound) it equals `N`, initiations yield
strictly increasing ids, and the icon path (a `sizes` mutation) never
changes the element state, in particular not the counter. -/
theorem generation_counter_monotonic :
    (∀ b : Bool, (new_inherited b).request_generation_id.val = 0) ∧
    (∀ (doc : Document) (attrs : AttrSet) (href : String)
       (st : HTMLLinkElement) (url : String),
       doc.has_browsing_context = true → href.isEmpty = false →
       doc.base_join href = some url →
       (handle_stylesheet_url doc attrs href st).1.request_generation_id.val =
         (st.request_generation_id.val + 1) % u32Mod) ∧
    (∀ (doc : Document) (attrs : AttrSet) (href url : String) (b : Bool),
       doc.has_browsing_context = true → href.isEmpty = false →
       doc.base_join href = some url →
       ∀ n, n < u32Mod →
         (init_iter doc attrs href (new_inherited b) n).request_generation_id.val
           = n) ∧
    (∀ (doc : Document) (attrs : AttrSet) (href url : String) (b : Bool),
       doc.has_browsing_context = true → href.isEmpty = false →
       doc.base_join href = some url →
       ∀ i j, i < j → j < u32Mod →
         (init_iter doc attrs href (new_inherited b) i).request_generation_id.val
           <
         (init_iter doc attrs href (new_inherited b) j).request_generation_id.val) ∧
    (∀ (doc : Document) (attrs : AttrSet) (in_doc removal : Bool) (v : String)
       (st : HTMLLinkElement),
       (attribute_mutated doc attrs in_doc removal AttrName.sizes v st).1 = st) := by
  refine ⟨fun _ => rfl, ?_, ?_, ?_, ?_⟩
  · intro doc attrs href st url hbc hne hj
    rw [handle_stylesheet_url_gen_step doc attrs href st url hbc hne hj]
    rfl
  · intro doc attrs href url b hbc hne hj n hn
    exact init_iter_gen_fresh doc attrs href url b hbc hne hj n hn
  · intro doc attrs href url b hbc hne hj i j hij hj32
    rw [init_iter_gen_fresh doc attrs href url b hbc hne hj i
          (Nat.lt_trans hij hj32),
        init_iter_gen_fresh doc attrs href url b hbc hne hj j hj32]
    exact hij
  · intro doc attrs in_doc removal v st
    by_cases hdoc : in_doc = false ∨ removal = true
    · simp [attribute_mutated, hdoc]
    · unfold attribute_mutated
      rw [if_neg hdoc]
      dsimp only
      split
      · split
        · split <;> rfl
        · rfl
      · rfl

/-- Witness for C3: two initiations against a resolvable href take the
fresh element's generation from 0 to exactly 2. -/
theorem generation_counter_monotonic_witness :
    docEx.has_browsing_context = true ∧
    ("s.css").isEmpty = false ∧
    docEx.base_join "s.css" = some "http://a/s.css" ∧
    (2 : Nat) < u32Mod ∧
    (init_iter docEx attrsSheet "s.css" (new_inherited false) 2).request_generation_id.val
      = 2 :=
  ⟨rfl, rfl, rfl, by decide,
   generation_counter_monotonic.2.2.1 docEx attrsSheet "s.css" "http://a/s.css"
     false rfl rfl rfl 2 (by decide)⟩

/-- Counterexample for C5: `unbind_from_tree` empties the resource slot
but leaves the cached CSSOM wrapper in place, so the claim that the
cached wrapper is cleared whenever the slot is cleared is false on this
state. -/
theorem unbind_keeps_cssom_counterexample :
    (unbind_from_tree stWithSheet).1.stylesheet = none ∧
    (unbind_from_tree stWithSheet).1.cssom_stylesheet = some 3 ∧
    ¬ (unbind_from_tree stWithSheet).1.cssom_stylesheet = none := by
  decide

/-- Claim C5 (amended): the slot holds at most one stylesheet; installing
a new stylesheet deregisters the previous one (when present), stores the
new one, clears the cached wrapper, and registers the new one, in that
order; clearing the slot on tree removal deregisters the previous sheet
and empties the slot but leaves the cached wrapper untouched. -/
theorem set_stylesheet_swap_spec :
    (∀ (s : Sheet) (st : HTMLLinkElement) (old : Sheet),
       st.stylesheet = some old →
       set_stylesheet s st =
         ({ st with stylesheet := some s, cssom_stylesheet := none },
          [RegistryEvent.remove_stylesheet old,
           RegistryEvent.add_stylesheet s])) ∧
    (∀ (s : Sheet) (st : HTMLLinkElement), st.stylesheet = none →
       set_stylesheet s st =
         ({ st with stylesheet := some s, cssom_stylesheet := none },
          [RegistryEvent.add_stylesheet s])) ∧
    (∀ (st : HTMLLinkElement) (old : Sheet), st.stylesheet = some old →
       unbind_from_tree st =
         ({ st with stylesheet := none },
          [RegistryEvent.remove_stylesheet old])) := by
  refine ⟨?_, ?_, ?_⟩
  · intro s st old h
    simp [set_stylesheet, h]
  · intro s st h
    simp [set_stylesheet, h]
  · intro st old h
    simp [unbind_from_tree, h]

/-- Witness for C5 (amended): installing sheet 9 over installed sheet 7
deregisters 7, stores 9, clears the cached wrapper, registers 9. -/
theorem set_stylesheet_swap_spec_witness :
    stWithSheet.stylesheet = some 7 ∧
    set_stylesheet 9 stWithSheet =
      ({ stWithSheet with stylesheet := some 9, cssom_stylesheet := none },
       [RegistryEvent.remove_stylesheet 7, RegistryEvent.add_stylesheet 9]) :=
  ⟨rfl, set_stylesheet_swap_spec.1 9 stWithSheet 7 rfl⟩

/-- Claim C7: an embedder icon notification is dispatched only when the
window is top-level and the href resolves; and a `sizes` mutation on an
attached icon element with a resolvable href yields exactly one
notification, no state change and no loader call. -/
theorem favicon_notification_spec :
    (∀ (doc : Document) (r href : String) (sizes : Option String)
       (msg : EmbedderMsg), msg ∈ handle_favicon_url doc r href sizes →
       doc.window_is_top_level = true ∧
       ∃ url, doc.base_join href = some url ∧
         msg = EmbedderMsg.NewFavicon url) ∧
    (∀ (doc : Document) (attrs : AttrSet) (rel v href url : String)
       (st : HTMLLinkElement),
       attrs.rel = some rel → is_favicon (some rel) = true →
       attrs.href = some href → doc.base_join href = some url →
       doc.window_is_top_level = true →
       attribute_mutated doc attrs true false AttrName.sizes v st =
         (st, [], [EmbedderMsg.NewFavicon url])) := by
  constructor
  · intro doc r href sizes msg hmem
    unfold handle_favicon_url at hmem
    cases hj : doc.base_join href with
    | none =>
      rw [hj] at hmem
      cases hmem
    | some url =>
      rw [hj] at hmem
      cases ht : doc.window_is_top_level with
      | false =>
        rw [ht] at hmem
        simp at hmem
      | true =>
        rw [ht] at hmem
        simp at hmem
        exact ⟨rfl, url, rfl, hmem⟩
  · intro doc attrs rel v href url st hrel hfav hhref hj ht
    simp [attribute_mutated, hrel, hfav, hhref, handle_favicon_url, hj, ht]

/-- Witness for C7: changing `sizes` on an attached `rel="icon"` element
with resolvable href sends exactly one `NewFavicon` and leaves the state
alone. -/
theorem favicon_notification_spec_witness :
    attrsIcon.rel = some "icon" ∧
    is_favicon (some "icon") = true ∧
    attrsIcon.href = some "fav.png" ∧
    docEx.base_join "fav.png" = some "http://a/fav.png" ∧
    docEx.window_is_top_level = true ∧
    attribute_mutated docEx attrsIcon true false AttrName.sizes "32x32"
        stWithSheet =
      (stWithSheet, [], [EmbedderMsg.NewFavicon "http://a/fav.png"]) :=
  ⟨rfl, by decide, rfl, rfl, rfl,
   favicon_notification_spec.2 docEx attrsIcon "icon" "32x32" "fav.png"
     "http://a/fav.png" stWithSheet rfl (by decide) rfl rfl rfl⟩

/-- Claim C8: the CSSOM accessor returns none exactly when no stylesheet
is installed, and a repeated call returns the same cached wrapper without
running the constructor again. -/
theorem get_cssom_stylesheet_cached :
    (∀ (fresh : CssomSheet) (st : HTMLLinkElement),
       ((get_cssom_stylesheet fresh st).1 = none ↔ st.stylesheet = none)) ∧
    (∀ (f1 f2 : CssomSheet) (st : HTMLLinkElement),
       (get_cssom_stylesheet f2 (get_cssom_stylesheet f1 st).2.1).1
         = (get_cssom_stylesheet f1 st).1 ∧
       (get_cssom_stylesheet f2 (get_cssom_stylesheet f1 st).2.1).2.2
         = false) := by
  constructor
  · intro fresh st
    cases hs : st.stylesheet <;> cases hc : st.cssom_stylesheet <;>
      simp [get_cssom_stylesheet, hs, hc]
  · intro f1 f2 st
    cases hs : st.stylesheet <;> cases hc : st.cssom_stylesheet <;>
      simp [get_cssom_stylesheet, hs, hc]

/-- Witness for C8: on a state with no stylesheet the accessor yields
none; with one installed, the second call returns the first call's
wrapper and constructs nothing. -/
theorem get_cssom_stylesheet_cached_witness :
    ((get_cssom_stylesheet 4 (new_inherited false)).1 = none ↔
      (new_inherited false).stylesheet = none) ∧
    ((get_cssom_stylesheet 5 (get_cssom_stylesheet 4 stWithSheet).2.1).1
       = (get_cssom_stylesheet 4 stWithSheet).1 ∧
     (get_cssom_stylesheet 5 (get_cssom_stylesheet 4 stWithSheet).2.1).2.2
       = false) :=
  ⟨get_cssom_stylesheet_cached.1 4 (new_inherited false),
   get_cssom_stylesheet_cached.2 4 5 stWithSheet⟩

/-- Claim C10: the favicon path has no empty-href check — with a `rel`
that indicates an icon (and not a stylesheet), an empty href that joins
successfully still produces an embedder notification when the window is
top-level, while the stylesheet path treats the same empty href as a
no-op. -/
theorem favicon_empty_href_notifies (doc : Document) (attrs : AttrSet)
    (st : HTMLLinkElement) (rel u : String)
    (h1 : attrs.rel = some rel) (h2 : is_favicon (some rel) = true)
    (h3 : string_is_stylesheet (some rel) = false)
    (h4 : doc.base_join "" = some u) (h5 : doc.window_is_top_level = true) :
    attribute_mutated doc attrs true false AttrName.href "" st =
      (st, [], [EmbedderMsg.NewFavicon u]) ∧
    handle_stylesheet_url doc attrs "" st = (st, []) := by
  constructor
  · simp [attribute_mutated, h1, h2, h3, handle_favicon_url, h4, h5]
  · unfold handle_stylesheet_url
    split
    · rfl
    · rfl

/-- Witness for C10: `rel="icon"` with empty href still notifies with the
base URL, while the stylesheet path would do nothing. -/
theorem favicon_empty_href_notifies_witness :
    attrsIcon.rel = some "icon" ∧
    is_favicon (some "icon") = true ∧
    string_is_stylesheet (some "icon") = false ∧
    docEx.base_join "" = some "http://a/" ∧
    docEx.window_is_top_level = true ∧
    (attribute_mutated docEx attrsIcon true false AttrName.href ""
        stWithSheet =
      (stWithSheet, [], [EmbedderMsg.NewFavicon "http://a/"]) ∧
     handle_stylesheet_url docEx attrsIcon "" stWithSheet =
       (stWithSheet, [])) :=
  ⟨rfl, by decide, by decide, rfl, rfl,
   favicon_empty_href_notifies docEx attrsIcon stWithSheet "icon" "http://a/"
     rfl (by decide) (by decide) rfl rfl⟩
